import Mathlib

/-!
Shallow embedding of `agent.py` (class `ResumeAnalyzer`) from the
resumeAnalizer repository, together with proofs about the specification's
claims.

Modelling conventions:
- A Python exception is a pair of `str(e)` and `traceback.format_exc()`.
- An uploaded file (Streamlit `UploadedFile`) is modelled by its name, its
  current stream position, its byte size, and the abstract outcomes of
  handing its bytes to the two parsers used by the code:
  `pdfplumber.open` (a list of pages, each page's `extract_text()` giving
  either an exception or an `Optional[str]`) and `docx.Document` (a list
  of paragraph texts).
- Functions that mutate the file (its stream position) return the updated
  file alongside their result.
- The remote chat endpoint (`groq` client) is an abstract function from the
  index of the call (0-based, counting calls made so far in the process)
  and the request to either an exception or a completion; threading the
  index lets theorems count how many remote invocations a routine makes.
-/

set_option autoImplicit false

namespace ResumeSpec

/-- A raised Python exception: `str(e)` and `traceback.format_exc()`. -/
structure Exn where
  msg : String
  trace : String
deriving DecidableEq

/-- Outcome of `page.extract_text()` on one PDF page: either an exception
or Python's `Optional[str]` (where `none` is `None`). -/
abbrev PdfPage : Type := Except Exn (Option String)

/-- An uploaded file as the extractor sees it: filename, stream position,
byte size, and the abstract parse outcomes of its bytes. -/
structure UploadedFile where
  name : String
  pos : Nat
  size : Nat
  pdfParse : Except Exn (List PdfPage)
  docxParse : Except Exn (List String)

/-- ASCII whitespace stripped by Python's `str.strip()`. -/
def pyIsSpace (c : Char) : Bool :=
  c = ' ' ∨ c = '\t' ∨ c = '\n' ∨ c = '\r' ∨ c = '\x0b' ∨ c = '\x0c'

/-- Python's `s.strip()` (no argument): drop leading and trailing
whitespace. -/
def pyStrip (s : String) : String :=
  String.mk (((s.data.dropWhile pyIsSpace).reverse.dropWhile pyIsSpace).reverse)

/-- Python truthiness of an `Optional[str]`: `None` and `""` are falsy. -/
def optStrTruthy : Option String → Bool
  | none => false
  | some s => s ≠ ""

/-- The page loop of `extract_text_from_pdf` (lines 66-75): accumulate each
truthy page text with no separator; a falsy page or a raising page ends the
loop with an error message naming the 1-based page number. -/
def pdfPageLoop : List PdfPage → Nat → String → Except String String
  | [], _, acc => Except.ok acc
  | pg :: rest, pageNum, acc =>
    match pg with
    | Except.error e =>
      Except.error ("Error extracting text from page " ++ toString pageNum ++ ": " ++ e.msg)
    | Except.ok pageText =>
      if optStrTruthy pageText then
        pdfPageLoop rest (pageNum + 1) (acc ++ pageText.getD "")
      else
        Except.error ("Page " ++ toString pageNum ++ " appears to be empty or unreadable")

/-- Embedding of `ResumeAnalyzer.extract_text_from_pdf` (lines 54-83). The
code reads the stream and then seeks to 0, so the returned file has
position 0. -/
def extract_text_from_pdf (f : UploadedFile) : (String × String) × UploadedFile :=
  let f1 : UploadedFile := { f with pos := 0 }
  match f.pdfParse with
  | Except.error e =>
    (("", "PDF processing error: " ++ e.msg ++ "\n\nTechnical details:\n" ++ e.trace), f1)
  | Except.ok pages =>
    match pdfPageLoop pages 1 "" with
    | Except.error errMsg => (("", errMsg), f1)
    | Except.ok text =>
      if pyStrip text = "" then
        (("", "No text could be extracted from the PDF. The file might be scanned or image-based."), f1)
      else
        ((text, ""), f1)

/-- Embedding of `ResumeAnalyzer.extract_text_from_docx` (lines 85-103). -/
def extract_text_from_docx (f : UploadedFile) : (String × String) × UploadedFile :=
  let f1 : UploadedFile := { f with pos := 0 }
  match f.docxParse with
  | Except.error e =>
    (("", "DOCX processing error: " ++ e.msg ++ "\n\nTechnical details:\n" ++ e.trace), f1)
  | Except.ok paras =>
    let text := String.intercalate "\n" paras
    if pyStrip text = "" then
      (("", "No text could be extracted from the DOCX file. The file might be empty or corrupted."), f1)
    else
      ((text, ""), f1)

/-- Index of the last occurrence of `c` in `cs`, like Python's `str.rfind`
restricted to its `Option` form. -/
def lastIdxOf (cs : List Char) (c : Char) : Option Nat :=
  match cs.reverse.findIdx? (fun x => x = c) with
  | none => none
  | some i => some (cs.length - 1 - i)

/-- The extension part of `os.path.splitext(p)[1]` (posix, `sep = '/'`):
the suffix from the last dot, provided that dot lies after the last
separator and the characters between the separator and the dot are not all
dots (so dotfiles such as `.bashrc` have no extension). -/
def splitextExt (p : String) : String :=
  let cs := p.data
  match lastIdxOf cs '.' with
  | none => ""
  | some d =>
    let s0 : Nat :=
      match lastIdxOf cs '/' with
      | none => 0
      | some s => s + 1
    if s0 ≤ d then
      if ((cs.drop s0).take (d - s0)).any (fun x => x ≠ '.') then
        String.mk (cs.drop d)
      else ""
    else ""

/-- Python's `str.lower()`, character by character (ASCII case folding). -/
def pyLower (s : String) : String :=
  String.mk (s.data.map Char.toLower)

/-- Embedding of `ResumeAnalyzer.extract_text` (lines 105-122): dispatch on
the lower-cased filename extension; `None` signals a missing upload or an
unsupported type, the sub-extractors use `""`. -/
def extract_text (file : Option UploadedFile) :
    (Option String × Option String) × Option UploadedFile :=
  match file with
  | none => ((none, some "No file uploaded"), none)
  | some f =>
    let file_extension := pyLower (splitextExt f.name)
    if file_extension = ".pdf" then
      let r := extract_text_from_pdf f
      ((some r.1.1, some r.1.2), some r.2)
    else if file_extension = ".docx" ∨ file_extension = ".doc" then
      let r := extract_text_from_docx f
      ((some r.1.1, some r.1.2), some r.2)
    else
      ((none, some ("Unsupported file type: " ++ file_extension ++
        ". Please upload a PDF or DOCX file.")), some f)

/-- A chat message as sent to the remote endpoint. -/
structure Message where
  role : String
  content : String
deriving DecidableEq

/-- One completion choice returned by the endpoint. -/
structure Choice where
  message : Message
deriving DecidableEq

/-- A completion object returned by the endpoint. -/
structure Completion where
  choices : List Choice
deriving DecidableEq

/-- A request to `client.chat.completions.create`. -/
structure ChatRequest where
  model : String
  messages : List Message
  max_tokens : Nat
  temperature : ℚ
deriving DecidableEq

/-- The abstract remote endpoint: given the 0-based index of the call made
so far in the process and the request, it either raises or returns a
completion. -/
def RemoteClient : Type := Nat → ChatRequest → Except Exn Completion

/-- The prompt catalog `ResumeAnalyzer.default_prompts` (lines 18-52),
in insertion order. Apostrophes from the source are written `\x27`. -/
def default_prompts : List (String × String) :=
  [("structure",
    "You are a seasoned HR professional with 15+ years of experience in hiring, " ++
    "who has analyzed millions of resumes across various industries. Your goal is to help candidates " ++
    "improve their resumes by providing expert feedback on structure. \n\n" ++
    "Analyze the given resume and evaluate whether it follows a logical and professional structure. " ++
    "Does it include key sections such as \x27Contact Information\x27, \x27Summary\x27, \x27Education\x27, \x27Work Experience\x27, " ++
    "\x27Skills\x27, and \x27Certifications\x27 (if applicable)? Are the sections well-organized and easy to navigate? " ++
    "Provide constructive suggestions to enhance clarity, readability, and flow."),
   ("skills",
    "You are an experienced talent acquisition specialist who has matched thousands of professionals to their ideal roles. " ++
    "Your task is to assess the skills listed in the resume and ensure they align with industry expectations. \n\n" ++
    "Check if the listed skills are relevant to the candidate\x27s field. Are they clearly stated and well-categorized " ++
    "(e.g., technical skills, soft skills, tools, languages)? \n" ++
    "Suggest any missing key skills that would strengthen the resume and make the candidate more competitive. " ++
    "Also, recommend better phrasing or structuring if necessary."),
   ("grammar",
    "You are an expert resume editor and linguistic specialist with a deep understanding of professional communication. " ++
    "Your job is to thoroughly check the resume for grammatical errors, spelling mistakes, and awkward phrasing. \n\n" ++
    "Identify any grammatical issues, punctuation errors, or inconsistent verb tenses. " ++
    "Highlight areas where clarity can be improved and suggest alternative wording to make the resume more polished and professional."),
   ("experience",
    "You are a recruitment consultant who has reviewed thousands of resumes to find the best candidates for top companies. " ++
    "Your task is to analyze the \x27Work Experience\x27 section of the resume and ensure it effectively showcases achievements. \n\n" ++
    "Does the candidate describe their experience with action-oriented bullet points? " ++
    "Are there quantifiable achievements (e.g., \x27Increased sales by 30%\x27, \x27Led a team of 10\x27) that demonstrate impact? \n" ++
    "Suggest improvements to make this section stronger, emphasizing measurable results, leadership, and industry-specific keywords.")]

/-- The request built by `get_feedback_from_model` (lines 127-137): a fixed
model identifier, a single user-role message whose content is
`prompt + "\n\n" + "Resume Text: " + resume_text`, 1000 max tokens,
temperature 0.7. -/
def mkRequest (resume_text prompt : String) : ChatRequest :=
  { model := "mixtral-8x7b-32768"
    messages := [{ role := "user"
                   content := prompt ++ "\n\n" ++ "Resume Text: " ++ resume_text }]
    max_tokens := 1000
    temperature := 7 / 10 }

/-- Embedding of `ResumeAnalyzer.get_feedback_from_model` (lines 124-140).
An empty `choices` list makes `completion.choices[0]` raise an
`IndexError`, caught by the same `except` clause. The second component
counts the remote call just made. -/
def get_feedback_from_model (client : RemoteClient) (callIdx : Nat)
    (resume_text prompt : String) : String × Nat :=
  match client callIdx (mkRequest resume_text prompt) with
  | Except.error e => ("Error getting feedback: " ++ e.msg, callIdx + 1)
  | Except.ok completion =>
    match completion.choices with
    | [] => ("Error getting feedback: list index out of range", callIdx + 1)
    | c :: _ => (c.message.content, callIdx + 1)

/-- The loop of `analyze_resume` (lines 147-148): one feedback call per
catalog entry, results keyed by category in iteration order. -/
def feedbackLoop (client : RemoteClient) (resume_text : String) :
    List (String × String) → Nat → List (String × String) × Nat
  | [], n => ([], n)
  | (key, prompt) :: rest, n =>
    let r := get_feedback_from_model client n resume_text prompt
    let t := feedbackLoop client resume_text rest r.2
    ((key, r.1) :: t.1, t.2)

/-- Embedding of `ResumeAnalyzer.analyze_resume` (lines 142-150). The
Python line `prompts = prompts or self.default_prompts` replaces both
`None` and an empty (falsy) dict by the default catalog. -/
def analyze_resume (client : RemoteClient) (callIdx : Nat)
    (resume_text : String) (prompts : Option (List (String × String))) :
    List (String × String) × Nat :=
  let ps :=
    match prompts with
    | none => default_prompts
    | some given => if given.isEmpty then default_prompts else given
  feedbackLoop client resume_text ps callIdx

/-- Embedding of `ResumeAnalyzer.analyze_single_prompt` (lines 152-154). -/
def analyze_single_prompt (client : RemoteClient) (callIdx : Nat)
    (resume_text prompt : String) : String × Nat :=
  get_feedback_from_model client callIdx resume_text prompt

/-- Concatenation of a list of strings with no separator, the shape the
PDF page loop accumulates. -/
def joinAll : List String → String
  | [] => ""
  | s :: rest => s ++ joinAll rest

/-! Helper lemmas. -/

lemma append_ne_empty_left (s t : String) (h : s ≠ "") : s ++ t ≠ "" := by
  intro hc
  apply h
  have hlen : s.length + t.length = 0 := by
    have h2 := congrArg String.length hc
    rwa [String.length_append] at h2
  cases s with
  | mk l =>
    cases l with
    | nil => rfl
    | cons c cs =>
      exfalso
      have hx : (String.mk (c :: cs)).length = cs.length + 1 := rfl
      omega

lemma ne_empty_of_pyStrip (s : String) (h : pyStrip s ≠ "") : s ≠ "" := by
  intro hc
  subst hc
  exact h (by decide)

lemma pdfPageLoop_all_truthy (texts : List String) :
    ∀ (n : Nat) (acc : String), (∀ s ∈ texts, s ≠ "") →
      pdfPageLoop (texts.map fun s => Except.ok (some s)) n acc =
        Except.ok (acc ++ joinAll texts) := by
  induction texts with
  | nil =>
    intro n acc _
    simp [pdfPageLoop, joinAll]
  | cons s ss ih =>
    intro n acc h
    have hs : s ≠ "" := h s (by simp)
    have hrest : ∀ x ∈ ss, x ≠ "" := fun x hx => h x (by simp [hx])
    have htr : optStrTruthy (some s) = true := by simp [optStrTruthy, hs]
    simp only [List.map_cons, pdfPageLoop, htr, if_true]
    rw [ih (n + 1) (acc ++ (some s).getD "") hrest]
    simp [joinAll, String.append_assoc]

lemma pdfPageLoop_falsy_page (pre : List String) (bad : Option String) (rest : List PdfPage) :
    ∀ (n : Nat) (acc : String), (∀ s ∈ pre, s ≠ "") → optStrTruthy bad = false →
      pdfPageLoop ((pre.map fun s => Except.ok (some s)) ++ Except.ok bad :: rest) n acc =
        Except.error ("Page " ++ toString (n + pre.length) ++ " appears to be empty or unreadable") := by
  induction pre with
  | nil =>
    intro n acc _ hbad
    simp [pdfPageLoop, hbad]
  | cons s ss ih =>
    intro n acc h hbad
    have hs : s ≠ "" := h s (by simp)
    have hrest : ∀ x ∈ ss, x ≠ "" := fun x hx => h x (by simp [hx])
    have htr : optStrTruthy (some s) = true := by simp [optStrTruthy, hs]
    simp only [List.map_cons, List.cons_append, pdfPageLoop, htr, if_true, List.append_eq]
    rw [ih (n + 1) (acc ++ (some s).getD "") hrest hbad]
    have harith : n + 1 + ss.length = n + (ss.length + 1) := by omega
    simp [harith]

lemma pdfPageLoop_error_ne_empty (pages : List PdfPage) :
    ∀ (n : Nat) (acc msg : String),
      pdfPageLoop pages n acc = Except.error msg → msg ≠ "" := by
  induction pages with
  | nil =>
    intro n acc msg h
    simp [pdfPageLoop] at h
  | cons pg rest ih =>
    intro n acc msg h
    cases pg with
    | error e =>
      simp only [pdfPageLoop] at h
      injection h with h
      subst h
      apply append_ne_empty_left
      apply append_ne_empty_left
      apply append_ne_empty_left
      decide
    | ok o =>
      by_cases ht : optStrTruthy o
      · simp only [pdfPageLoop, ht, if_true] at h
        exact ih _ _ _ h
      · rw [Bool.not_eq_true] at ht
        simp only [pdfPageLoop, ht, if_false] at h
        injection h with h
        subst h
        apply append_ne_empty_left
        apply append_ne_empty_left
        decide

lemma get_feedback_count (client : RemoteClient) (n : Nat) (txt p : String) :
    (get_feedback_from_model client n txt p).2 = n + 1 := by
  unfold get_feedback_from_model
  cases hc : client n (mkRequest txt p) with
  | error e => rfl
  | ok completion =>
    cases completion with
    | mk choices =>
      cases choices with
      | nil => rfl
      | cons c rest => rfl

lemma get_feedback_cases (client : RemoteClient) (n : Nat) (txt p : String) :
    (∃ d, (get_feedback_from_model client n txt p).1 = "Error getting feedback: " ++ d) ∨
    (∃ (completion : Completion) (c : Choice) (rest : List Choice),
      client n (mkRequest txt p) = Except.ok completion ∧
      completion.choices = c :: rest ∧
      (get_feedback_from_model client n txt p).1 = c.message.content) := by
  unfold get_feedback_from_model
  cases hc : client n (mkRequest txt p) with
  | error e => exact Or.inl ⟨e.msg, rfl⟩
  | ok completion =>
    cases completion with
    | mk choices =>
      cases choices with
      | nil => exact Or.inl ⟨"list index out of range", rfl⟩
      | cons c rest => exact Or.inr ⟨⟨c :: rest⟩, c, rest, rfl, rfl, rfl⟩

lemma feedbackLoop_count (client : RemoteClient) (txt : String)
    (ps : List (String × String)) (n : Nat) :
    (feedbackLoop client txt ps n).2 = n + ps.length := by
  induction ps generalizing n with
  | nil => rfl
  | cons kv rest ih =>
    cases kv with
    | mk key prompt =>
      simp only [feedbackLoop, get_feedback_count, ih, List.length_cons]
      omega

lemma feedbackLoop_keys (client : RemoteClient) (txt : String)
    (ps : List (String × String)) (n : Nat) :
    (feedbackLoop client txt ps n).1.map Prod.fst = ps.map Prod.fst := by
  induction ps generalizing n with
  | nil => rfl
  | cons kv rest ih =>
    cases kv with
    | mk key prompt =>
      simp only [feedbackLoop, List.map_cons, ih]

lemma feedbackLoop_getElem (client : RemoteClient) (txt : String)
    (ps : List (String × String)) (n j : Nat) (k p : String)
    (hj : ps[j]? = some (k, p)) :
    (feedbackLoop client txt ps n).1[j]? =
      some (k, (get_feedback_from_model client (n + j) txt p).1) := by
  induction ps generalizing n j with
  | nil => simp at hj
  | cons kv rest ih =>
    cases kv with
    | mk key prompt =>
      cases j with
      | zero =>
        simp only [List.getElem?_cons_zero, Option.some_inj] at hj
        cases hj
        simp only [feedbackLoop, List.getElem?_cons_zero, Nat.add_zero]
      | succ j =>
        simp only [List.getElem?_cons_succ] at hj
        simp only [feedbackLoop, List.getElem?_cons_succ, get_feedback_count]
        rw [ih (n + 1) j hj]
        have harith : n + 1 + j = n + (j + 1) := by omega
        rw [harith]

lemma feedbackLoop_values_err (client : RemoteClient) (txt : String)
    (hc : ∀ (i : Nat) (req : ChatRequest), ∃ e : Exn, client i req = Except.error e)
    (ps : List (String × String)) (n : Nat) :
    ∀ kv ∈ (feedbackLoop client txt ps n).1, ∃ d, kv.2 = "Error getting feedback: " ++ d := by
  induction ps generalizing n with
  | nil => intro kv hkv; simp [feedbackLoop] at hkv
  | cons hd rest ih =>
    cases hd with
    | mk key prompt =>
      intro kv hkv
      simp only [feedbackLoop, List.mem_cons] at hkv
      cases hkv with
      | inl heq =>
        obtain ⟨e, he⟩ := hc n (mkRequest txt prompt)
        subst heq
        refine ⟨e.msg, ?_⟩
        simp [get_feedback_from_model, he]
      | inr hmem => exact ih _ kv hmem

lemma extract_pdf_exclusive (f : UploadedFile) :
    ((extract_text_from_pdf f).1.1 ≠ "" ∧ (extract_text_from_pdf f).1.2 = "") ∨
    ((extract_text_from_pdf f).1.1 = "" ∧ (extract_text_from_pdf f).1.2 ≠ "") := by
  cases hp : f.pdfParse with
  | error e =>
    right
    refine ⟨?_, ?_⟩
    · simp [extract_text_from_pdf, hp]
    · simp only [extract_text_from_pdf, hp]
      apply append_ne_empty_left
      apply append_ne_empty_left
      apply append_ne_empty_left
      decide
  | ok pages =>
    cases hl : pdfPageLoop pages 1 "" with
    | error msg =>
      right
      refine ⟨?_, ?_⟩
      · simp [extract_text_from_pdf, hp, hl]
      · simp only [extract_text_from_pdf, hp, hl]
        exact pdfPageLoop_error_ne_empty pages 1 "" msg hl
    | ok text =>
      by_cases hs : pyStrip text = ""
      · right
        refine ⟨?_, ?_⟩
        · simp [extract_text_from_pdf, hp, hl, hs]
        · simp only [extract_text_from_pdf, hp, hl]
          rw [if_pos hs]
          show "No text could be extracted from the PDF. The file might be scanned or image-based." ≠ ""
          decide
      · left
        refine ⟨?_, ?_⟩
        · simp only [extract_text_from_pdf, hp, hl]
          rw [if_neg hs]
          exact ne_empty_of_pyStrip text hs
        · simp [extract_text_from_pdf, hp, hl, hs]

lemma extract_docx_exclusive (f : UploadedFile) :
    ((extract_text_from_docx f).1.1 ≠ "" ∧ (extract_text_from_docx f).1.2 = "") ∨
    ((extract_text_from_docx f).1.1 = "" ∧ (extract_text_from_docx f).1.2 ≠ "") := by
  cases hp : f.docxParse with
  | error e =>
    right
    refine ⟨?_, ?_⟩
    · simp [extract_text_from_docx, hp]
    · simp only [extract_text_from_docx, hp]
      apply append_ne_empty_left
      apply append_ne_empty_left
      apply append_ne_empty_left
      decide
  | ok paras =>
    by_cases hs : pyStrip (String.intercalate "\n" paras) = ""
    · right
      refine ⟨?_, ?_⟩
      · simp [extract_text_from_docx, hp, hs]
      · simp only [extract_text_from_docx, hp]
        rw [if_pos hs]
        show "No text could be extracted from the DOCX file. The file might be empty or corrupted." ≠ ""
        decide
    · left
      refine ⟨?_, ?_⟩
      · simp only [extract_text_from_docx, hp]
        rw [if_neg hs]
        exact ne_empty_of_pyStrip _ hs
      · simp [extract_text_from_docx, hp, hs]

/-! Concrete fixtures used by counterexamples and witnesses. -/

/-- A remote endpoint that raises on every call. -/
def errClient : RemoteClient := fun _ _ => Except.error ⟨"boom", "tb"⟩

/-- A remote endpoint that answers every call with one choice. -/
def okClient : RemoteClient := fun _ _ => Except.ok ⟨[⟨⟨"assistant", "feedback"⟩⟩]⟩

/-- An upload named `resume.txt`. -/
def txtFile : UploadedFile :=
  ⟨"resume.txt", 0, 10, Except.error ⟨"", ""⟩, Except.error ⟨"", ""⟩⟩

/-- A DOCX upload with three paragraphs. -/
def janeDocxFile : UploadedFile :=
  ⟨"resume.docx", 0, 100, Except.error ⟨"", ""⟩,
   Except.ok ["Jane Doe", "Education: BSc CS", "Skills: Python, SQL"]⟩

/-- A PDF upload with two readable pages. -/
def pdfGoodFile : UploadedFile :=
  ⟨"resume.pdf", 0, 100,
   Except.ok [Except.ok (some "Hello "), Except.ok (some "World")],
   Except.error ⟨"", ""⟩⟩

/-- A PDF upload whose second page has no extractable text; a third page
follows it. -/
def pdfEmptyPageFile : UploadedFile :=
  ⟨"resume.pdf", 0, 100,
   Except.ok [Except.ok (some "A"), Except.ok none, Except.error ⟨"x", "t"⟩],
   Except.error ⟨"", ""⟩⟩

/-- A PDF upload whose only page extracts to whitespace. -/
def pdfSpacesFile : UploadedFile :=
  ⟨"resume.pdf", 0, 100, Except.ok [Except.ok (some " ")], Except.error ⟨"", ""⟩⟩

/-- A DOCX upload with no paragraphs. -/
def emptyDocxFile : UploadedFile :=
  ⟨"resume.docx", 0, 0, Except.error ⟨"", ""⟩, Except.ok []⟩

/-- A legacy binary `.doc` upload: the DOCX parser rejects it. -/
def legacyDocFile : UploadedFile :=
  ⟨"old.doc", 0, 100, Except.error ⟨"", ""⟩,
   Except.error ⟨"File is not a zip file", "Traceback (most recent call last)"⟩⟩

/-- A PDF upload whose stream position is 1, not at the start. -/
def movedPosFile : UploadedFile :=
  ⟨"resume.pdf", 1, 5, Except.ok [Except.ok (some "hi")], Except.error ⟨"", ""⟩⟩

/-! Claim theorems. -/

/-- C1 counterexample: the claim promises N feedback invocations and N keys
for every N-entry catalog including N = 0, but `prompts or
self.default_prompts` treats an empty dict as falsy, so a 0-entry catalog
triggers 4 remote calls and 4 keyed results. -/
theorem c1_empty_catalog_counterexample :
    (analyze_resume errClient 0 "resume text" (some [])).1.length ≠ 0 ∧
    (analyze_resume errClient 0 "resume text" (some [])).2 ≠ 0 ∧
    (analyze_resume errClient 0 "resume text" (some [])).1.length = 4 ∧
    (analyze_resume errClient 0 "resume text" (some [])).2 = 4 := by
  refine ⟨?_, ?_, rfl, rfl⟩ <;> decide

/-- C1 (amended): for every catalog with N ≥ 1 entries passed to
`analyze_resume`, the feedback step is invoked exactly N times and the
result has exactly the catalog's N keys, each value either the model's
first-choice text or an error-shaped string; an empty (or absent) catalog
instead falls back to the default 4-entry catalog. -/
theorem c1_analyze_resume_nonempty_catalog (client : RemoteClient) (n0 : Nat)
    (txt : String) (ps : List (String × String)) (hne : ps ≠ []) :
    (analyze_resume client n0 txt (some ps)).2 = n0 + ps.length ∧
    (analyze_resume client n0 txt (some ps)).1.map Prod.fst = ps.map Prod.fst ∧
    ∀ (j : Nat) (k p : String), ps[j]? = some (k, p) →
      (analyze_resume client n0 txt (some ps)).1[j]? =
        some (k, (get_feedback_from_model client (n0 + j) txt p).1) ∧
      ((∃ d, (get_feedback_from_model client (n0 + j) txt p).1 =
          "Error getting feedback: " ++ d) ∨
       ∃ (completion : Completion) (c : Choice) (rest : List Choice),
         client (n0 + j) (mkRequest txt p) = Except.ok completion ∧
         completion.choices = c :: rest ∧
         (get_feedback_from_model client (n0 + j) txt p).1 = c.message.content) := by
  have hie : ps.isEmpty = false := by
    cases ps with
    | nil => exact absurd rfl hne
    | cons a l => rfl
  have hru : analyze_resume client n0 txt (some ps) = feedbackLoop client txt ps n0 := by
    simp [analyze_resume, hie]
  refine ⟨?_, ?_, ?_⟩
  · rw [hru]; exact feedbackLoop_count client txt ps n0
  · rw [hru]; exact feedbackLoop_keys client txt ps n0
  · intro j k p hj
    refine ⟨?_, get_feedback_cases client (n0 + j) txt p⟩
    rw [hru]
    exact feedbackLoop_getElem client txt ps n0 j k p hj

/-- C1 witness: a one-entry catalog makes exactly one remote call. -/
theorem c1_witness_singleton :
    (analyze_resume errClient 0 "resume text" (some [("k", "p")])).2 = 0 + 1 :=
  (c1_analyze_resume_nonempty_catalog errClient 0 "resume text" [("k", "p")]
    (by simp)).1

/-- C2: for every PDF, extraction concatenates the per-page texts in page
order with no separator; a page with no extractable text (falsy
`page.extract_text()`) fails the whole extraction with empty text and an
error naming that page's 1-based number, and pages after it (quantified
but absent from the result) are never consulted. -/
theorem c2_pdf_page_concatenation (f : UploadedFile) :
    (∀ texts : List String,
      f.pdfParse = Except.ok (texts.map fun s => Except.ok (some s)) →
      (∀ s ∈ texts, s ≠ "") →
      pyStrip (joinAll texts) ≠ "" →
      (extract_text_from_pdf f).1 = (joinAll texts, "")) ∧
    (∀ (pre : List String) (bad : Option String) (rest : List PdfPage),
      f.pdfParse = Except.ok ((pre.map fun s => Except.ok (some s)) ++ Except.ok bad :: rest) →
      (∀ s ∈ pre, s ≠ "") →
      optStrTruthy bad = false →
      (extract_text_from_pdf f).1 =
        ("", "Page " ++ toString (pre.length + 1) ++ " appears to be empty or unreadable")) := by
  constructor
  · intro texts hparse hne hstrip
    have hloop := pdfPageLoop_all_truthy texts 1 "" hne
    rw [String.empty_append] at hloop
    simp only [extract_text_from_pdf, hparse, hloop]
    rw [if_neg hstrip]
  · intro pre bad rest hparse hpre hbad
    have hloop := pdfPageLoop_falsy_page pre bad rest 1 "" hpre hbad
    rw [Nat.add_comm 1 pre.length] at hloop
    simp only [extract_text_from_pdf, hparse, hloop]

/-- C2 witness: two readable pages concatenate with no separator; a falsy
second page fails with an error naming page 2 even though a third page
follows. -/
theorem c2_witness_files :
    (extract_text_from_pdf pdfGoodFile).1 = (joinAll ["Hello ", "World"], "") ∧
    (extract_text_from_pdf pdfEmptyPageFile).1 =
      ("", "Page " ++ toString ((["A"] : List String).length + 1) ++
        " appears to be empty or unreadable") ∧
    joinAll ["Hello ", "World"] = "Hello World" :=
  ⟨(c2_pdf_page_concatenation pdfGoodFile).1 ["Hello ", "World"] rfl (by decide) (by decide),
   (c2_pdf_page_concatenation pdfEmptyPageFile).2 ["A"] none [Except.error ⟨"x", "t"⟩]
     rfl (by decide) rfl,
   by decide⟩

/-- C3: a raising remote call is converted into an "Error getting
feedback: {details}" string (the embedding is a total function, so nothing
propagates); with an endpoint that raises on every call, `analyze_resume`
over the default catalog still returns 4 entries, each error-shaped. -/
theorem c3_remote_errors_as_strings :
    (∀ (client : RemoteClient) (n : Nat) (txt prompt : String) (e : Exn),
      client n (mkRequest txt prompt) = Except.error e →
      (get_feedback_from_model client n txt prompt).1 = "Error getting feedback: " ++ e.msg) ∧
    (∀ (client : RemoteClient) (txt : String),
      (∀ (i : Nat) (req : ChatRequest), ∃ e : Exn, client i req = Except.error e) →
      (analyze_resume client 0 txt none).1.length = 4 ∧
      ∀ kv ∈ (analyze_resume client 0 txt none).1,
        ∃ d, kv.2 = "Error getting feedback: " ++ d) := by
  constructor
  · intro client n txt prompt e he
    simp [get_feedback_from_model, he]
  · intro client txt hc
    constructor
    · have hk := feedbackLoop_keys client txt default_prompts 0
      have := congrArg List.length hk
      simpa [analyze_resume] using this
    · intro kv hkv
      exact feedbackLoop_values_err client txt hc default_prompts 0 kv
        (by simpa [analyze_resume] using hkv)

/-- C3 witness: a concrete always-raising endpoint. -/
theorem c3_witness_err_endpoint :
    (get_feedback_from_model errClient 0 "doc" "ask").1 =
      "Error getting feedback: " ++ "boom" ∧
    (analyze_resume errClient 0 "doc" none).1.length = 4 :=
  ⟨c3_remote_errors_as_strings.1 errClient 0 "doc" "ask" ⟨"boom", "tb"⟩ rfl,
   (c3_remote_errors_as_strings.2 errClient "doc"
     (fun _ _ => ⟨⟨"boom", "tb"⟩, rfl⟩)).1⟩

/-- C4: the feedback client sends exactly one user-role message whose
content is `prompt + "\n\n" + "Resume Text: " + text`, with model
"mixtral-8x7b-32768", max_tokens 1000 and temperature 0.7; it makes
exactly one remote call, and on success returns the first choice's text
verbatim. -/
theorem c4_request_and_success_shape :
    (∀ txt prompt : String,
      (mkRequest txt prompt).model = "mixtral-8x7b-32768" ∧
      (mkRequest txt prompt).messages =
        [{ role := "user", content := prompt ++ "\n\n" ++ "Resume Text: " ++ txt }] ∧
      (mkRequest txt prompt).max_tokens = 1000 ∧
      (mkRequest txt prompt).temperature = 7 / 10) ∧
    (∀ (client : RemoteClient) (n : Nat) (txt prompt : String),
      (get_feedback_from_model client n txt prompt).2 = n + 1) ∧
    (∀ (client : RemoteClient) (n : Nat) (txt prompt : String)
        (completion : Completion) (c : Choice) (rest : List Choice),
      client n (mkRequest txt prompt) = Except.ok completion →
      completion.choices = c :: rest →
      (get_feedback_from_model client n txt prompt).1 = c.message.content) := by
  refine ⟨fun txt prompt => ⟨rfl, rfl, rfl, rfl⟩, get_feedback_count, ?_⟩
  intro client n txt prompt completion c rest hok hch
  simp [get_feedback_from_model, hok, hch]

/-- C4 witness: a concrete endpoint returning one choice. -/
theorem c4_witness_ok_endpoint :
    (get_feedback_from_model okClient 0 "doc" "ask").1 = "feedback" ∧
    (get_feedback_from_model okClient 0 "doc" "ask").2 = 0 + 1 :=
  ⟨c4_request_and_success_shape.2.2 okClient 0 "doc" "ask"
     ⟨[⟨⟨"assistant", "feedback"⟩⟩]⟩ ⟨⟨"assistant", "feedback"⟩⟩ [] rfl rfl,
   c4_request_and_success_shape.2.1 okClient 0 "doc" "ask"⟩

/-- C5: every result of `extract_text` has exactly one of non-empty text
or non-empty error (an absent `None` component counts as empty). -/
theorem c5_text_error_exclusive (file : Option UploadedFile) :
    ((extract_text file).1.1.getD "" ≠ "" ∧ (extract_text file).1.2.getD "" = "") ∨
    ((extract_text file).1.1.getD "" = "" ∧ (extract_text file).1.2.getD "" ≠ "") := by
  cases file with
  | none =>
    right
    exact ⟨rfl, by decide⟩
  | some f =>
    by_cases h1 : pyLower (splitextExt f.name) = ".pdf"
    · have hru : extract_text (some f) =
          ((some (extract_text_from_pdf f).1.1, some (extract_text_from_pdf f).1.2),
            some (extract_text_from_pdf f).2) := by
        simp [extract_text, h1]
      rw [hru]
      rcases extract_pdf_exclusive f with ⟨ha, hb⟩ | ⟨ha, hb⟩
      · left; exact ⟨by simpa using ha, by simpa using hb⟩
      · right; exact ⟨by simpa using ha, by simpa using hb⟩
    · by_cases h2 : pyLower (splitextExt f.name) = ".docx" ∨ pyLower (splitextExt f.name) = ".doc"
      · have hru : extract_text (some f) =
            ((some (extract_text_from_docx f).1.1, some (extract_text_from_docx f).1.2),
              some (extract_text_from_docx f).2) := by
          simp only [extract_text]
          rw [if_neg h1, if_pos h2]
        rw [hru]
        rcases extract_docx_exclusive f with ⟨ha, hb⟩ | ⟨ha, hb⟩
        · left; exact ⟨by simpa using ha, by simpa using hb⟩
        · right; exact ⟨by simpa using ha, by simpa using hb⟩
      · have hru : extract_text (some f) =
            ((none, some ("Unsupported file type: " ++ pyLower (splitextExt f.name) ++
              ". Please upload a PDF or DOCX file.")), some f) := by
          simp only [extract_text]
          rw [if_neg h1, if_neg h2]
        rw [hru]
        right
        refine ⟨rfl, ?_⟩
        simp only [Option.getD_some]
        apply append_ne_empty_left
        apply append_ne_empty_left
        decide

/-- C6: a present upload whose lower-cased extension is none of `.pdf`,
`.docx`, `.doc` yields no text (`None`) and a non-empty error message that
carries the offending (lower-cased) extension. -/
theorem c6_unsupported_extension (f : UploadedFile)
    (h1 : pyLower (splitextExt f.name) ≠ ".pdf")
    (h2 : pyLower (splitextExt f.name) ≠ ".docx")
    (h3 : pyLower (splitextExt f.name) ≠ ".doc") :
    (extract_text (some f)).1.1 = none ∧
    (extract_text (some f)).1.2 =
      some ("Unsupported file type: " ++ pyLower (splitextExt f.name) ++
        ". Please upload a PDF or DOCX file.") ∧
    "Unsupported file type: " ++ pyLower (splitextExt f.name) ++
      ". Please upload a PDF or DOCX file." ≠ "" := by
  have hor : ¬ (pyLower (splitextExt f.name) = ".docx" ∨ pyLower (splitextExt f.name) = ".doc") := by
    rintro (h | h)
    · exact h2 h
    · exact h3 h
  refine ⟨?_, ?_, ?_⟩
  · simp only [extract_text]
    rw [if_neg h1, if_neg hor]
  · simp only [extract_text]
    rw [if_neg h1, if_neg hor]
  · apply append_ne_empty_left
    apply append_ne_empty_left
    decide

/-- C6 witness: a file named `resume.txt` yields `None` text and an error
mentioning `.txt`. -/
theorem c6_witness_txt_file :
    (extract_text (some txtFile)).1.1 = none ∧
    (extract_text (some txtFile)).1.2 =
      some ("Unsupported file type: " ++ pyLower (splitextExt txtFile.name) ++
        ". Please upload a PDF or DOCX file.") ∧
    "Unsupported file type: " ++ pyLower (splitextExt txtFile.name) ++
      ". Please upload a PDF or DOCX file." ≠ "" :=
  c6_unsupported_extension txtFile (by decide) (by decide) (by decide)

/-- C7: DOCX extraction joins all paragraph texts in document order with
newlines; a malformed archive fails the whole extraction with a wrapped
error and no partial text. -/
theorem c7_docx_join_paragraphs (f : UploadedFile) :
    (∀ paras : List String, f.docxParse = Except.ok paras →
      pyStrip (String.intercalate "\n" paras) ≠ "" →
      (extract_text_from_docx f).1 = (String.intercalate "\n" paras, "")) ∧
    (∀ e : Exn, f.docxParse = Except.error e →
      (extract_text_from_docx f).1 =
        ("", "DOCX processing error: " ++ e.msg ++ "\n\nTechnical details:\n" ++ e.trace)) := by
  constructor
  · intro paras hp hs
    simp only [extract_text_from_docx, hp]
    rw [if_neg hs]
  · intro e hp
    simp only [extract_text_from_docx, hp]

/-- C7 witness: the three-paragraph example from the spec. -/
theorem c7_witness_jane :
    (extract_text_from_docx janeDocxFile).1 =
      (String.intercalate "\n" ["Jane Doe", "Education: BSc CS", "Skills: Python, SQL"], "") ∧
    String.intercalate "\n" ["Jane Doe", "Education: BSc CS", "Skills: Python, SQL"] =
      "Jane Doe\nEducation: BSc CS\nSkills: Python, SQL" :=
  ⟨(c7_docx_join_paragraphs janeDocxFile).1
     ["Jane Doe", "Education: BSc CS", "Skills: Python, SQL"] rfl (by decide),
   by decide⟩

/-- C8: when the final extracted text is empty after stripping whitespace,
both the PDF path and the DOCX path return no text and a non-empty
human-readable error. -/
theorem c8_whitespace_only_document (f : UploadedFile) :
    (∀ texts : List String,
      f.pdfParse = Except.ok (texts.map fun s => Except.ok (some s)) →
      (∀ s ∈ texts, s ≠ "") →
      pyStrip (joinAll texts) = "" →
      (extract_text_from_pdf f).1 =
        ("", "No text could be extracted from the PDF. The file might be scanned or image-based.")) ∧
    (∀ paras : List String, f.docxParse = Except.ok paras →
      pyStrip (String.intercalate "\n" paras) = "" →
      (extract_text_from_docx f).1 =
        ("", "No text could be extracted from the DOCX file. The file might be empty or corrupted.")) ∧
    "No text could be extracted from the PDF. The file might be scanned or image-based." ≠ "" ∧
    "No text could be extracted from the DOCX file. The file might be empty or corrupted." ≠ "" := by
  refine ⟨?_, ?_, by decide, by decide⟩
  · intro texts hparse hne hstrip
    have hloop := pdfPageLoop_all_truthy texts 1 "" hne
    rw [String.empty_append] at hloop
    simp only [extract_text_from_pdf, hparse, hloop]
    rw [if_pos hstrip]
  · intro paras hp hs
    simp only [extract_text_from_docx, hp]
    rw [if_pos hs]

/-- C8 witness: a PDF whose single page is one space, and a DOCX with no
paragraphs. -/
theorem c8_witness_whitespace_files :
    (extract_text_from_pdf pdfSpacesFile).1 =
      ("", "No text could be extracted from the PDF. The file might be scanned or image-based.") ∧
    (extract_text_from_docx emptyDocxFile).1 =
      ("", "No text could be extracted from the DOCX file. The file might be empty or corrupted.") :=
  ⟨(c8_whitespace_only_document pdfSpacesFile).1 [" "] rfl (by decide) (by decide),
   (c8_whitespace_only_document emptyDocxFile).2.1 [] rfl (by decide)⟩

/-- C9 counterexample: the claim says the caller's stream position is not
mutated, but both extractors `read()` then `seek(0)`; on a file whose
position was 1 the position after the call is 0. -/
theorem c9_position_counterexample :
    (extract_text_from_pdf movedPosFile).2.pos ≠ movedPosFile.pos := by
  decide

/-- C9 (amended): the extractors reset the stream position to the start
(offset 0) rather than leaving it untouched, so the file is re-readable
from the beginning after the call; when the position was already 0 — the
position it has when the presentation layer hands the upload over — it is
unchanged and the file is re-readable exactly as before. -/
theorem c9_extract_resets_position (f : UploadedFile) :
    (extract_text_from_pdf f).2 = { f with pos := 0 } ∧
    (extract_text_from_docx f).2 = { f with pos := 0 } ∧
    (f.pos = 0 → (extract_text_from_pdf f).2 = f ∧ (extract_text_from_docx f).2 = f) := by
  have hpdf : (extract_text_from_pdf f).2 = { f with pos := 0 } := by
    cases hp : f.pdfParse with
    | error e => simp [extract_text_from_pdf, hp]
    | ok pages =>
      cases hl : pdfPageLoop pages 1 "" with
      | error msg => simp [extract_text_from_pdf, hp, hl]
      | ok text =>
        simp only [extract_text_from_pdf, hp, hl]
        split <;> rfl
  have hdocx : (extract_text_from_docx f).2 = { f with pos := 0 } := by
    cases hp : f.docxParse with
    | error e => simp [extract_text_from_docx, hp]
    | ok paras =>
      simp only [extract_text_from_docx, hp]
      split <;> rfl
  refine ⟨hpdf, hdocx, ?_⟩
  intro h0
  have hf : ({ f with pos := 0 } : UploadedFile) = f := by
    cases f with
    | mk nm p sz pp dp =>
      have hp0 : p = 0 := h0
      subst hp0
      rfl
  rw [hpdf, hdocx, hf]
  exact ⟨rfl, rfl⟩

/-- C9 witness: a file whose position is already 0 comes back unchanged. -/
theorem c9_witness_position_zero :
    (extract_text_from_pdf pdfGoodFile).2 = pdfGoodFile :=
  ((c9_extract_resets_position pdfGoodFile).2.2 rfl).1

/-- C10: a `.doc` filename is routed to the DOCX parser, so a genuine
legacy binary `.doc` document produces a DOCX-processing error rather than
its text; the missing-upload and unsupported-type paths signal absence of
text with `None` while the pdf/docx parse paths use `""`. -/
theorem c10_doc_routed_to_docx :
    (∀ f : UploadedFile, pyLower (splitextExt f.name) = ".doc" →
      (extract_text (some f)).1 =
        (some (extract_text_from_docx f).1.1, some (extract_text_from_docx f).1.2)) ∧
    (∀ (f : UploadedFile) (e : Exn), pyLower (splitextExt f.name) = ".doc" →
      f.docxParse = Except.error e →
      (extract_text (some f)).1 =
        (some "", some ("DOCX processing error: " ++ e.msg ++
          "\n\nTechnical details:\n" ++ e.trace))) ∧
    (extract_text none).1 = (none, some "No file uploaded") ∧
    (∀ f : UploadedFile, pyLower (splitextExt f.name) ≠ ".pdf" →
      pyLower (splitextExt f.name) ≠ ".docx" → pyLower (splitextExt f.name) ≠ ".doc" →
      (extract_text (some f)).1.1 = none) := by
  refine ⟨?_, ?_, rfl, ?_⟩
  · intro f h
    simp only [extract_text, h]
    rw [if_pos (show ".doc" = ".docx" ∨ True from Or.inr trivial),
      if_neg (show ¬ (".doc" = ".pdf") by decide)]
  · intro f e h hd
    simp only [extract_text, h]
    rw [if_pos (show ".doc" = ".docx" ∨ True from Or.inr trivial),
      if_neg (show ¬ (".doc" = ".pdf") by decide)]
    simp only [extract_text_from_docx, hd]
  · intro f h1 h2 h3
    have hor : ¬ (pyLower (splitextExt f.name) = ".docx" ∨
        pyLower (splitextExt f.name) = ".doc") := by
      rintro (h | h)
      · exact h2 h
      · exact h3 h
    simp only [extract_text]
    rw [if_neg h1, if_neg hor]

/-- C10 witness: a legacy binary `.doc` whose DOCX parse raises. -/
theorem c10_witness_legacy_doc :
    (extract_text (some legacyDocFile)).1 =
      (some "", some ("DOCX processing error: " ++ "File is not a zip file" ++
        "\n\nTechnical details:\n" ++ "Traceback (most recent call last)")) :=
  c10_doc_routed_to_docx.2.1 legacyDocFile
    ⟨"File is not a zip file", "Traceback (most recent call last)"⟩ (by decide) rfl

end ResumeSpec
